import Mathlib

/-!
Shallow embedding of the paperboy-app simulation core (src/paperboy-3d/src/js):
player kinematics (player.js), obstacle collision and newspaper delivery
(game.js), the AABB helper and DOM lookup helper (utils.js), and the
event-driven transition system formed by the animation frame, throwing,
movement input, jumping and restart (controls.js, ui.js, game.js).

Continuous quantities (positions, velocities, times) are rationals; the
integer-valued counters (score, papers, lives) are integers.  Rendering-only
state (meshes, camera, materials, console logging except where a claim is
about it) is omitted; the `object.visible` flag of the player mesh is kept as
`objectVisible` because player.js writes it separately from the `isVisible`
field.
-/

/-- A 3-vector, as THREE.Vector3 restricted to the simulation fields. -/
structure Vec3 where
  x : ℚ
  y : ℚ
  z : ℚ
deriving DecidableEq

/-- Componentwise addition, as Vector3.add. -/
def Vec3.add (a b : Vec3) : Vec3 := ⟨a.x + b.x, a.y + b.y, a.z + b.z⟩

/-- Replace the y component, as `v.position.y = c`. -/
def Vec3.withY (v : Vec3) (y : ℚ) : Vec3 := { v with y := y }

/-- The zero vector, as `velocity.set(0, 0, 0)`. -/
def vzero : Vec3 := ⟨0, 0, 0⟩

/-- Math.abs on rationals, written out so that it evaluates by kernel
reduction (the lattice |a| of Mathlib does not). -/
def Math.abs (a : ℚ) : ℚ := if a < 0 then -a else a

/-- Obstacle type tags used by world generation (blocks/houses/parks/streets). -/
inductive ObstacleType where
  | hill
  | car
  | tree
  | sign
  | bench
  | pond
  | drain
deriving DecidableEq

/-- An obstacle record as pushed onto the obstacles array by world generation. -/
structure Obstacle where
  position : Vec3
  width : ℚ
  height : ℚ
  depth : ℚ
  type : ObstacleType
deriving DecidableEq

/-- A mailbox record as pushed by createMailbox in obstacles.js. -/
structure Mailbox where
  position : Vec3
  width : ℚ
  length : ℚ
deriving DecidableEq

/-- A porch record as pushed by createHouse in houses.js. -/
structure Porch where
  position : Vec3
  width : ℚ
  length : ℚ
deriving DecidableEq

/-- A newspaper projectile as returned by createNewspaper in obstacles.js
(the mesh and raycaster are rendering-only and omitted). -/
structure Newspaper where
  position : Vec3
  velocity : Vec3
  thrown : Bool
  delivered : Bool
deriving DecidableEq

/-- An axis-aligned wall collision box: scene children with
`userData.type === 'wall'`, reduced to their THREE.Box3 bounds. -/
structure Wall where
  boxMin : Vec3
  boxMax : Vec3
deriving DecidableEq

/-- Player state from player.js (mesh construction omitted; `objectVisible`
models `this.object.visible`). -/
structure PlayerState where
  width : ℚ
  height : ℚ
  depth : ℚ
  position : Vec3
  velocity : Vec3
  speed : ℚ
  canJump : Bool
  isJumping : Bool
  jumpSpeed : ℚ
  playerHeight : ℚ
  isInvincible : Bool
  invincibleTime : ℚ
  blinkTime : ℚ
  isVisible : Bool
  objectVisible : Bool
deriving DecidableEq

/-- Game state from game.js (scene/camera/renderer/ui omitted; the wall
collision boxes of the scene are kept in `walls`). -/
structure GameState where
  isActive : Bool
  score : ℤ
  papers : ℤ
  lives : ℤ
  obstacles : List Obstacle
  mailboxes : List Mailbox
  porches : List Porch
  newspapers : List Newspaper
  walls : List Wall
  gameTime : ℚ
  player : PlayerState
deriving DecidableEq

/-- Player fields as set by the Player constructor and create(). -/
def initialPlayer : PlayerState :=
  { width := 1, height := 2, depth := 1.5,
    position := ⟨0, 1, 0⟩, velocity := ⟨0, 0, 0⟩, speed := 0.10,
    canJump := true, isJumping := false, jumpSpeed := 0.2, playerHeight := 1,
    isInvincible := false, invincibleTime := 0, blinkTime := 0,
    isVisible := true, objectVisible := true }

/-- Game state right after startGame() with a generated world. -/
def initState (obstacles : List Obstacle) (mailboxes : List Mailbox)
    (porches : List Porch) (walls : List Wall) : GameState :=
  { isActive := true, score := 0, papers := 100, lives := 3,
    obstacles := obstacles, mailboxes := mailboxes, porches := porches,
    newspapers := [], walls := walls, gameTime := 0, player := initialPlayer }

/-- Player.makeInvincible from player.js. -/
def Player.makeInvincible (p : PlayerState) : PlayerState :=
  { p with isInvincible := true, invincibleTime := 0, blinkTime := 0 }

/-- Player.startJump from player.js. -/
def Player.startJump (p : PlayerState) : PlayerState :=
  if p.isJumping then p
  else
    { p with isJumping := true,
             velocity := { p.velocity with y := p.jumpSpeed },
             canJump := false }

/-- Player.reset from player.js. -/
def Player.reset (p : PlayerState) : PlayerState :=
  { p with position := ⟨0, p.playerHeight, 0⟩, velocity := ⟨0, 0, 0⟩,
           isJumping := false, canJump := true, isInvincible := false,
           objectVisible := true }

/-- Player.update from player.js: integrate x/z velocity, clamp x to the road
range [-15, 15], integrate the jump with constant gravity decrement 0.01, and
advance the invincibility/blink timers.  The rotation update of the mesh is
rendering-only and omitted. -/
def Player.update (p : PlayerState) (deltaTime : ℚ) : PlayerState :=
  let x1 := p.position.x + p.velocity.x
  let z1 := p.position.z + p.velocity.z
  let x2 := max (-15) (min 15 x1)
  let p1 : PlayerState := { p with position := ⟨x2, p.position.y, z1⟩ }
  let p2 : PlayerState :=
    if p1.isJumping then
      let y1 := p1.position.y + p1.velocity.y
      let vy1 := p1.velocity.y - 0.01
      if y1 ≤ p1.playerHeight then
        { p1 with position := Vec3.withY p1.position p1.playerHeight,
                  isJumping := false,
                  velocity := { p1.velocity with y := 0 },
                  canJump := true }
      else
        { p1 with position := Vec3.withY p1.position y1,
                  velocity := { p1.velocity with y := vy1 } }
    else p1
  if p2.isInvincible then
    let it := p2.invincibleTime + deltaTime
    let bt := p2.blinkTime + deltaTime
    let p3 : PlayerState :=
      if bt > 0.1 then
        { p2 with invincibleTime := it, blinkTime := 0,
                  isVisible := !p2.isVisible, objectVisible := !p2.isVisible }
      else { p2 with invincibleTime := it, blinkTime := bt }
    if it > 2 then { p3 with isInvincible := false, objectVisible := true }
    else p3
  else p2

/-- An object with an axis-aligned footprint, the shape utils.checkCollision
reads from its two arguments. -/
structure BoxObject where
  position : Vec3
  width : ℚ
  depth : ℚ
deriving DecidableEq

/-- checkCollision from utils.js: AABB overlap on x/z with tolerance 0.7. -/
def checkCollision (obj1 obj2 : BoxObject) : Bool :=
  decide (Math.abs (obj1.position.x - obj2.position.x) < (obj1.width / 2 + obj2.width / 2) * 0.7) &&
  decide (Math.abs (obj1.position.z - obj2.position.z) < (obj1.depth / 2 + obj2.depth / 2) * 0.7)

/-- The inline player/obstacle hit test of Game.checkObstacleCollisions. -/
def obstacleHit (p : PlayerState) (o : Obstacle) : Bool :=
  decide (Math.abs (p.position.x - o.position.x) < (p.width / 2 + o.width / 2) * 0.7) &&
  decide (Math.abs (p.position.z - o.position.z) < (p.depth / 2 + o.depth / 2) * 0.7)

/-- The obstacle scan of Game.checkObstacleCollisions: some non-hill
obstacle passes the hit test.  The source loop exits at the first such
obstacle; since the applied effect does not depend on which obstacle
matched, the loop is embedded through List.any. -/
def collisionScan (g : GameState) : Bool :=
  g.obstacles.any (fun o =>
    decide (o.type ≠ ObstacleType.hill) && obstacleHit g.player o)

/-- Game.checkObstacleCollisions from game.js.  Returns the boolean result
together with the updated state (score -5, lives -1, invincibility, endGame
when lives run out). -/
def Game.checkObstacleCollisions (g : GameState) : Bool × GameState :=
  if g.player.isInvincible then (false, g)
  else if collisionScan g then
    let g1 := { g with score := g.score - 5, lives := g.lives - 1,
                       player := Player.makeInvincible g.player }
    (true, if g1.lives ≤ 0 then { g1 with isActive := false } else g1)
  else (false, g)

/-- Game.isPlayerOnHill from game.js. -/
def Game.isPlayerOnHill (g : GameState) : Bool :=
  g.obstacles.any (fun o =>
    decide (o.type = ObstacleType.hill) &&
    decide (Math.abs (g.player.position.x - o.position.x) < o.width / 2) &&
    decide (Math.abs (g.player.position.z - o.position.z) < o.depth / 2))

/-- createNewspaper from world/obstacles.js: initial velocity (vx, 0.2, vz),
thrown and undelivered. -/
def Obstacles.createNewspaper (x y z vx vz : ℚ) : Newspaper :=
  { position := ⟨x, y, z⟩, velocity := ⟨vx, 0.2, vz⟩,
    thrown := true, delivered := false }

/-- Game.createNewspaper from game.js: no-op when out of papers, otherwise
decrement papers and push the new projectile. -/
def Game.createNewspaper (g : GameState) (x y z vx vz : ℚ) : GameState :=
  if g.papers ≤ 0 then g
  else { g with papers := g.papers - 1,
                newspapers := g.newspapers ++ [Obstacles.createNewspaper x y z vx vz] }

/-- Box3.containsPoint for a wall collision box. -/
def wallContains (w : Wall) (pos : Vec3) : Bool :=
  decide (w.boxMin.x ≤ pos.x) && decide (pos.x ≤ w.boxMax.x) &&
  decide (w.boxMin.y ≤ pos.y) && decide (pos.y ≤ w.boxMax.y) &&
  decide (w.boxMin.z ≤ pos.z) && decide (pos.z ≤ w.boxMax.z)

/-- The velocity of an airborne newspaper after the gravity decrement
`velocity.y -= 0.015` of Game.updateNewspapers. -/
def paperStepVel (n : Newspaper) : Vec3 :=
  { n.velocity with y := n.velocity.y - 0.015 }

/-- Whether the tentative new position of an airborne newspaper lands inside
some wall collision box. -/
def paperHitsWall (walls : List Wall) (n : Newspaper) : Bool :=
  walls.any (fun w => wallContains w (Vec3.add n.position (paperStepVel n)))

/-- Position of an airborne newspaper after the motion update of
Game.updateNewspapers: gravity, velocity integration, and restoration of the
previous position on a wall hit. -/
def paperStepPos (walls : List Wall) (n : Newspaper) : Vec3 :=
  if paperHitsWall walls n then n.position
  else Vec3.add n.position (paperStepVel n)

/-- Mailbox delivery zone test of Game.updateNewspapers:
dx < 0.75, dz < 0.75, |y - 1.2| < 1.0. -/
def inMailboxZone (pos : Vec3) (m : Mailbox) : Bool :=
  decide (Math.abs (pos.x - m.position.x) < 0.75) &&
  decide (Math.abs (pos.z - m.position.z) < 0.75) &&
  decide (Math.abs (pos.y - 1.2) < 1.0)

/-- Porch delivery zone test of Game.updateNewspapers:
dx < porch.width, dz < porch.length, y < 0.5. -/
def inPorchZone (pos : Vec3) (p : Porch) : Bool :=
  decide (Math.abs (pos.x - p.position.x) < p.width) &&
  decide (Math.abs (pos.z - p.position.z) < p.length) &&
  decide (pos.y < 0.5)

/-- The loop body of Game.updateNewspapers for one newspaper, minus the
removal check: for an airborne (thrown, undelivered) paper apply gravity and
motion, resolve walls, then scan mailboxes, scan porches, and resolve ground
contact, in source order.  The source's mailbox and porch loops exit at the
first match and the effect does not depend on which record matched, so they
are embedded through List.any.  Returns the updated newspaper and the score
delta awarded. -/
def updateOneNewspaper (walls : List Wall) (mbs : List Mailbox)
    (ps : List Porch) (n : Newspaper) : Newspaper × ℤ :=
  if n.thrown && !n.delivered then
    let hitWall := paperHitsWall walls n
    let n0 : Newspaper :=
      { n with position := paperStepPos walls n,
               velocity := paperStepVel n,
               thrown := if hitWall then false else n.thrown }
    let n1s : Newspaper × ℤ :=
      if mbs.any (fun m => inMailboxZone n0.position m) then
        ({ n0 with position := Vec3.withY n0.position 1.2, velocity := vzero,
                   thrown := false, delivered := true }, 20)
      else (n0, 0)
    let n2s : Newspaper × ℤ :=
      if ps.any (fun p => inPorchZone n1s.1.position p) then
        ({ n1s.1 with position := Vec3.withY n1s.1.position 0.2, velocity := vzero,
                      thrown := false, delivered := true }, n1s.2 + 10)
      else n1s
    if n2s.1.position.y ≤ 0.05 then
      ({ n2s.1 with position := Vec3.withY n2s.1.position 0.05, velocity := vzero,
                    thrown := false }, n2s.2)
    else n2s
  else (n, 0)

/-- The per-newspaper pass of Game.updateNewspapers over the whole list,
including the removal of grounded undelivered papers once gameTime exceeds
30.  The source iterates from the last index down and splices removed
entries; each entry is processed independently, so this forward recursion
produces the same resulting list and the same total score delta. -/
def updateNewspapersList (walls : List Wall) (mbs : List Mailbox)
    (ps : List Porch) (t : ℚ) : List Newspaper → List Newspaper × ℤ
  | [] => ([], 0)
  | n :: rest =>
    let r := updateOneNewspaper walls mbs ps n
    let rr := updateNewspapersList walls mbs ps t rest
    if !r.1.thrown && !r.1.delivered && decide (t > 30) then (rr.1, r.2 + rr.2)
    else (r.1 :: rr.1, r.2 + rr.2)

/-- Game.updateNewspapers from game.js lifted to the game state. -/
def Game.updateNewspapers (g : GameState) : GameState :=
  let r := updateNewspapersList g.walls g.mailboxes g.porches g.gameTime g.newspapers
  { g with newspapers := r.1, score := g.score + r.2 }

/-- Game.restartGame from game.js (scene and ui calls omitted). -/
def Game.restartGame (g : GameState) : GameState :=
  { g with player := Player.reset g.player, isActive := true, score := 0,
           papers := 100, lives := 3, gameTime := 0, newspapers := [] }

/-- The collision-then-movement stage of Game.animate: run the obstacle
collision check and update the player only when no collision was flagged. -/
def Game.frameMove (g : GameState) (deltaTime : ℚ) : GameState :=
  let c := Game.checkObstacleCollisions g
  if c.1 then c.2
  else { c.2 with player := Player.update c.2.player deltaTime }

/-- The final check of Game.animate: end the game when papers are exhausted
with no newspapers left and lives remain. -/
def Game.endCheck (g : GameState) : GameState :=
  if g.papers ≤ 0 ∧ g.newspapers = [] ∧ 0 < g.lives then
    { g with isActive := false }
  else g

/-- One pass of the active branch of Game.animate: advance gameTime, run the
collision check and movement, update the newspapers, and run the end-of-game
check.  Camera movement and rendering are omitted. -/
def Game.frameStep (g : GameState) (deltaTime : ℚ) : GameState :=
  Game.endCheck (Game.updateNewspapers
    (Game.frameMove { g with gameTime := g.gameTime + deltaTime } deltaTime))

/-- A value returned to script code by a DOM lookup: an element handle
(modelled by its id string), the null reference, or undefined.  JavaScript
distinguishes null from undefined; document.getElementById returns null for a
missing element. -/
inductive DomValue where
  | elem : String → DomValue
  | null : DomValue
  | undefined : DomValue
deriving DecidableEq

/-- A document, as the partial map from element ids to elements. -/
def Document : Type := String → Option String

/-- document.getElementById: the element when present, null when missing. -/
def documentGetElementById (doc : Document) (id : String) : DomValue :=
  match doc id with
  | some e => DomValue.elem e
  | none => DomValue.null

/-- getElementById from utils.js: look the element up, log a console error
when the result is falsy (null or undefined), and return the looked-up value
unchanged.  The second component collects the console.error output. -/
def getElementById (doc : Document) (id : String) : DomValue × List String :=
  match documentGetElementById doc id with
  | DomValue.elem e => (DomValue.elem e, [])
  | v => (v, ["Element with ID \"" ++ id ++ "\" not found"])

/-- The event-driven transition system of the game: an animation frame while
active (game.js Game.animate), a newspaper throw on the space key while
active with papers in hand (controls.js handleSpecialKeyActions, with the
spawn position and velocity abstracted since controls.js derives them from
the mesh rotation), a movement-input tick (controls.js update), a hill jump
(controls.js handleSpecialKeyActions), and a restart from the game-over
screen (ui.js restart button). -/
inductive GameStep : GameState → GameState → Prop where
  | frame (g : GameState) (dt : ℚ) (hdt : 0 ≤ dt) (h : g.isActive = true) :
      GameStep g (Game.frameStep g dt)
  | throw (g : GameState) (x y z vx vz : ℚ) (h : g.isActive = true)
      (hp : 0 < g.papers) :
      GameStep g (Game.createNewspaper g x y z vx vz)
  | move (g : GameState) (vx : ℚ) (h : g.isActive = true)
      (hvx : vx = 0 ∨ vx = g.player.speed ∨ vx = -g.player.speed) :
      GameStep g { g with player :=
        { g.player with velocity := ⟨vx, g.player.velocity.y, g.player.speed⟩ } }
  | jump (g : GameState) (h : g.isActive = true) (hc : g.player.canJump = true)
      (hh : Game.isPlayerOnHill g = true) :
      GameStep g { g with score := g.score + 20, player := Player.startJump g.player }
  | restart (g : GameState) (h : g.isActive = false) :
      GameStep g (Game.restartGame g)

/-- States reachable from a given state through game transitions. -/
def Reachable (g g' : GameState) : Prop := Relation.ReflTransGen GameStep g g'

/-- Repeated newspaper throws with fixed arguments. -/
def throwMany : ℕ → GameState → GameState
  | 0, g => g
  | n + 1, g => throwMany n (Game.createNewspaper g 0 2 0 0 0)

/-- Whether the collision check of a frame flags a hit (game.js animate runs
it on the state whose gameTime was just advanced). -/
def Game.frameHit (g : GameState) (dt : ℚ) : Bool :=
  (Game.checkObstacleCollisions { g with gameTime := g.gameTime + dt }).1

/-- A car obstacle sitting at the origin, on top of the freshly spawned
player. -/
def carObstacle : Obstacle :=
  { position := ⟨0, 0, 0⟩, width := 2, height := 1.5, depth := 5,
    type := ObstacleType.car }

/-- A fresh game whose world holds the single car obstacle. -/
def stateWithCar : GameState := initState [carObstacle] [] [] []

/-- The same game with the player already invincible. -/
def stateInvincible : GameState :=
  { stateWithCar with player := { initialPlayer with isInvincible := true } }

/-- A fresh game with an empty world and no papers left. -/
def statePapersOut : GameState := { initState [] [] [] [] with papers := 0 }

/-- A mailbox at the origin. -/
def mailboxA : Mailbox := { position := ⟨0, 0, 0⟩, width := 1, length := 0.5 }

/-- A porch whose delivery zone covers the origin. -/
def porchA : Porch := { position := ⟨0, 0.2, 0⟩, width := 2, length := 3 }

/-- A newspaper whose next integrated position (0, 0.4, 0) lies inside both
the mailbox zone of mailboxA and the porch zone of porchA. -/
def paperBothZones : Newspaper :=
  { position := ⟨0, 0.415, 0⟩, velocity := ⟨0, 0, 0⟩,
    thrown := true, delivered := false }

/-- A game holding mailboxA, porchA and the airborne paperBothZones. -/
def stateBothZones : GameState :=
  { initState [] [mailboxA] [porchA] [] with newspapers := [paperBothZones] }

/-- A newspaper whose next integrated position (0, 1.2, 0) is dead centre of
the mailbox zone of mailboxA. -/
def paperToMailbox : Newspaper :=
  { position := ⟨0, 2.215, 0⟩, velocity := ⟨0, -1, 0⟩,
    thrown := true, delivered := false }

/-- An airborne newspaper about to drop below ground level. -/
def paperLanding : Newspaper :=
  { position := ⟨0, 0.05, 0⟩, velocity := ⟨0, -0.1, 0⟩,
    thrown := true, delivered := false }

/-- A game at gameTime 31 holding the still airborne paperLanding. -/
def stateLateGround : GameState :=
  { initState [] [] [] [] with newspapers := [paperLanding], gameTime := 31 }

/-- A newspaper already at rest on the ground, undelivered. -/
def paperGrounded : Newspaper :=
  { position := ⟨0, 0.05, 0⟩, velocity := vzero,
    thrown := false, delivered := false }

/-- A newspaper already delivered, resting at a mailbox. -/
def paperDelivered : Newspaper :=
  { position := ⟨0, 1.2, 0⟩, velocity := vzero,
    thrown := false, delivered := true }

/-- A document holding exactly one element, with id "score". -/
def docWithScore : Document :=
  fun id => if id = "score" then some "scoreBox" else none

/-- The per-newspaper pass never lengthens the newspapers list. -/
theorem updateNewspapersList_length_le (walls : List Wall) (mbs : List Mailbox)
    (ps : List Porch) (t : ℚ) (l : List Newspaper) :
    (updateNewspapersList walls mbs ps t l).1.length ≤ l.length := by
  induction l with
  | nil => simp [updateNewspapersList]
  | cons n rest ih =>
    simp only [updateNewspapersList]
    split
    · exact Nat.le_succ_of_le ih
    · simpa using Nat.succ_le_succ ih

/-- Game.updateNewspapers only writes the newspapers list and the score. -/
theorem updateNewspapers_fields (g : GameState) :
    (Game.updateNewspapers g).papers = g.papers ∧
    (Game.updateNewspapers g).lives = g.lives ∧
    (Game.updateNewspapers g).isActive = g.isActive ∧
    (Game.updateNewspapers g).player = g.player ∧
    (Game.updateNewspapers g).gameTime = g.gameTime :=
  ⟨rfl, rfl, rfl, rfl, rfl⟩

/-- The executable Math.abs agrees with the lattice absolute value. -/
theorem Math.abs_eq_abs (a : ℚ) : Math.abs a = |a| := by
  unfold Math.abs
  split
  · rw [abs_of_neg (by assumption)]
  · rw [abs_of_nonneg (le_of_not_lt (by assumption))]

/-- The collision scan flags a hit exactly when some non-hill obstacle passes
the 0.7-tolerance axis-aligned test. -/
theorem collisionScan_iff (g : GameState) :
    collisionScan g = true ↔
      ∃ o ∈ g.obstacles, o.type ≠ ObstacleType.hill ∧
        |g.player.position.x - o.position.x| < (g.player.width / 2 + o.width / 2) * 0.7 ∧
        |g.player.position.z - o.position.z| < (g.player.depth / 2 + o.depth / 2) * 0.7 := by
  simp [collisionScan, List.any_eq_true, obstacleHit, Bool.and_eq_true,
    decide_eq_true_eq, Math.abs_eq_abs]

/-- Collision check with the player invincible: nothing happens. -/
theorem checkObstacleCollisions_invincible (g : GameState)
    (h : g.player.isInvincible = true) :
    Game.checkObstacleCollisions g = (false, g) := by
  unfold Game.checkObstacleCollisions
  rw [if_pos h]

/-- Collision check with no qualifying obstacle: nothing happens. -/
theorem checkObstacleCollisions_miss (g : GameState)
    (h1 : g.player.isInvincible = false)
    (h2 : collisionScan g = false) :
    Game.checkObstacleCollisions g = (false, g) := by
  unfold Game.checkObstacleCollisions
  rw [if_neg (by simp only [h1]; decide), if_neg (by simp only [h2]; decide)]

/-- Collision check on a hit: score -5, lives -1, invincibility, and the
game ends when the decremented lives are not positive. -/
theorem checkObstacleCollisions_hit (g : GameState)
    (h1 : g.player.isInvincible = false)
    (h2 : collisionScan g = true) :
    Game.checkObstacleCollisions g =
      (true,
       if g.lives - 1 ≤ 0 then
         { g with score := g.score - 5, lives := g.lives - 1,
                  player := Player.makeInvincible g.player, isActive := false }
       else
         { g with score := g.score - 5, lives := g.lives - 1,
                  player := Player.makeInvincible g.player }) := by
  unfold Game.checkObstacleCollisions
  rw [if_neg (by simp only [h1]; decide), if_pos h2]

/-- The collision check never writes the world lists, the resource counters
other than score and lives, the clock, or the player position. -/
theorem checkObstacleCollisions_world (g : GameState) :
    (Game.checkObstacleCollisions g).2.obstacles = g.obstacles ∧
    (Game.checkObstacleCollisions g).2.mailboxes = g.mailboxes ∧
    (Game.checkObstacleCollisions g).2.porches = g.porches ∧
    (Game.checkObstacleCollisions g).2.papers = g.papers ∧
    (Game.checkObstacleCollisions g).2.newspapers = g.newspapers ∧
    (Game.checkObstacleCollisions g).2.walls = g.walls ∧
    (Game.checkObstacleCollisions g).2.gameTime = g.gameTime ∧
    (Game.checkObstacleCollisions g).2.player.position = g.player.position := by
  by_cases hinv : g.player.isInvincible = true
  · rw [checkObstacleCollisions_invincible g hinv]
    exact ⟨rfl, rfl, rfl, rfl, rfl, rfl, rfl, rfl⟩
  · have hinv' : g.player.isInvincible = false := by simpa using hinv
    by_cases hany : collisionScan g = true
    · rw [checkObstacleCollisions_hit g hinv' hany]
      dsimp only
      split <;> exact ⟨rfl, rfl, rfl, rfl, rfl, rfl, rfl, rfl⟩
    · have hany' : collisionScan g = false := by simpa using hany
      rw [checkObstacleCollisions_miss g hinv' hany']
      exact ⟨rfl, rfl, rfl, rfl, rfl, rfl, rfl, rfl⟩

/-- Player.update leaves x equal to the clamp of the integrated x. -/
theorem Player.update_position_x (p : PlayerState) (dt : ℚ) :
    (Player.update p dt).position.x =
      max (-15) (min 15 (p.position.x + p.velocity.x)) := by
  simp only [Player.update, Vec3.withY]
  repeat' split
  all_goals rfl

/-- C4: after every player update the x coordinate lies in [-15, 15], and the
other operations that touch the player (reset, startJump, makeInvincible, the
collision check, the newspaper update, newspaper creation) never move x out
of that range: reset puts it at 0 and the rest preserve it. -/
theorem player_x_stays_in_lane (p : PlayerState) (dt : ℚ) (g : GameState)
    (x y z vx vz : ℚ) :
    (-15 ≤ (Player.update p dt).position.x ∧ (Player.update p dt).position.x ≤ 15) ∧
    (Player.reset p).position.x = 0 ∧
    (Player.startJump p).position.x = p.position.x ∧
    (Player.makeInvincible p).position.x = p.position.x ∧
    (Game.checkObstacleCollisions g).2.player.position.x = g.player.position.x ∧
    (Game.updateNewspapers g).player = g.player ∧
    (Game.createNewspaper g x y z vx vz).player = g.player := by
  refine ⟨⟨?_, ?_⟩, rfl, ?_, rfl, ?_, rfl, ?_⟩
  · rw [Player.update_position_x]; exact le_max_left _ _
  · rw [Player.update_position_x]
    exact max_le (by norm_num) (min_le_left _ _)
  · unfold Player.startJump; split <;> rfl
  · rw [(checkObstacleCollisions_world g).2.2.2.2.2.2.2]
  · unfold Game.createNewspaper; split <;> rfl

/-- C8: the per-frame operations (the obstacle collision check and the
newspaper update) leave the obstacles, mailboxes and porches lists exactly as
world generation produced them. -/
theorem frame_ops_preserve_world (g : GameState) :
    (Game.checkObstacleCollisions g).2.obstacles = g.obstacles ∧
    (Game.checkObstacleCollisions g).2.mailboxes = g.mailboxes ∧
    (Game.checkObstacleCollisions g).2.porches = g.porches ∧
    (Game.updateNewspapers g).obstacles = g.obstacles ∧
    (Game.updateNewspapers g).mailboxes = g.mailboxes ∧
    (Game.updateNewspapers g).porches = g.porches := by
  have h := checkObstacleCollisions_world g
  exact ⟨h.1, h.2.1, h.2.2.1, rfl, rfl, rfl⟩

/-- C9: creating a newspaper with no papers left changes nothing. -/
theorem create_newspaper_out_of_papers (g : GameState) (x y z vx vz : ℚ)
    (h : g.papers ≤ 0) : Game.createNewspaper g x y z vx vz = g := by
  unfold Game.createNewspaper
  simp [h]

/-- Witness for create_newspaper_out_of_papers at a concrete exhausted
state. -/
theorem create_newspaper_out_of_papers_witness :
    statePapersOut.papers ≤ 0 ∧
    Game.createNewspaper statePapersOut 0 2 0 0 0 = statePapersOut :=
  ⟨by decide, create_newspaper_out_of_papers statePapersOut 0 2 0 0 0 (by decide)⟩

/-- C2: with the player not invincible the collision check flags a hit
exactly when some non-hill obstacle is within the 0.7-scaled half-width sums
on both axes; a hit costs one life and five points and makes the player
invincible, no hit changes nothing; with the player invincible the check
flags nothing and changes nothing. -/
theorem obstacle_collision_check (g : GameState) :
    (g.player.isInvincible = false →
      (((Game.checkObstacleCollisions g).1 = true) ↔
        ∃ o ∈ g.obstacles, o.type ≠ ObstacleType.hill ∧
          |g.player.position.x - o.position.x| < (g.player.width / 2 + o.width / 2) * 0.7 ∧
          |g.player.position.z - o.position.z| < (g.player.depth / 2 + o.depth / 2) * 0.7) ∧
      ((Game.checkObstacleCollisions g).1 = true →
        (Game.checkObstacleCollisions g).2.lives = g.lives - 1 ∧
        (Game.checkObstacleCollisions g).2.score = g.score - 5 ∧
        (Game.checkObstacleCollisions g).2.player = Player.makeInvincible g.player) ∧
      ((Game.checkObstacleCollisions g).1 = false →
        (Game.checkObstacleCollisions g).2 = g)) ∧
    (g.player.isInvincible = true →
      (Game.checkObstacleCollisions g).1 = false ∧
      (Game.checkObstacleCollisions g).2 = g) := by
  constructor
  · intro hinv
    by_cases hany : collisionScan g = true
    · refine ⟨?_, fun _ => ?_, fun hmiss => ?_⟩
      · rw [checkObstacleCollisions_hit g hinv hany]
        simpa using (collisionScan_iff g).mp hany
      · rw [checkObstacleCollisions_hit g hinv hany]
        dsimp only
        split <;> exact ⟨rfl, rfl, rfl⟩
      · rw [checkObstacleCollisions_hit g hinv hany] at hmiss
        simp at hmiss
    · have hany' : collisionScan g = false := by simpa using hany
      refine ⟨?_, fun hhit => ?_, fun _ => ?_⟩
      · rw [checkObstacleCollisions_miss g hinv hany']
        constructor
        · intro h
          simp at h
        · intro hex
          exact absurd ((collisionScan_iff g).mpr hex) hany
      · rw [checkObstacleCollisions_miss g hinv hany'] at hhit
        simp at hhit
      · rw [checkObstacleCollisions_miss g hinv hany']
  · intro hinv
    rw [checkObstacleCollisions_invincible g hinv]
    exact ⟨rfl, rfl⟩

/-- Witness for obstacle_collision_check: a concrete hit state (car on the
player, 3 lives, score 0) and a concrete invincible state. -/
theorem obstacle_collision_check_witness :
    stateWithCar.player.isInvincible = false ∧
    (Game.checkObstacleCollisions stateWithCar).1 = true ∧
    (Game.checkObstacleCollisions stateWithCar).2.lives = stateWithCar.lives - 1 ∧
    (Game.checkObstacleCollisions stateWithCar).2.score = stateWithCar.score - 5 ∧
    (Game.checkObstacleCollisions stateWithCar).2.player =
      Player.makeInvincible stateWithCar.player ∧
    stateInvincible.player.isInvincible = true ∧
    (Game.checkObstacleCollisions stateInvincible).1 = false ∧
    (Game.checkObstacleCollisions stateInvincible).2 = stateInvincible := by
  have h1 := (obstacle_collision_check stateWithCar).1 rfl
  have h2 := (obstacle_collision_check stateInvincible).2 rfl
  have hscan : collisionScan stateWithCar = true := by
    norm_num [collisionScan, stateWithCar, initState, initialPlayer,
      carObstacle, obstacleHit, Math.abs]
    all_goals decide
  have hhit : (Game.checkObstacleCollisions stateWithCar).1 = true := by
    rw [checkObstacleCollisions_hit stateWithCar rfl hscan]
  have he := h1.2.1 hhit
  exact ⟨rfl, hhit, he.1, he.2.1, he.2.2, rfl, h2.1, h2.2⟩

/-- A delivered newspaper is skipped by the update loop body. -/
theorem updateOneNewspaper_delivered (walls : List Wall) (mbs : List Mailbox)
    (ps : List Porch) (n : Newspaper) (hd : n.delivered = true) :
    updateOneNewspaper walls mbs ps n = (n, 0) := by
  unfold updateOneNewspaper
  rw [if_neg (by simp [hd])]

/-- A grounded (not thrown) newspaper is skipped by the update loop body. -/
theorem updateOneNewspaper_grounded (walls : List Wall) (mbs : List Mailbox)
    (ps : List Porch) (n : Newspaper) (ht : n.thrown = false) :
    updateOneNewspaper walls mbs ps n = (n, 0) := by
  unfold updateOneNewspaper
  rw [if_neg (by simp [ht])]

/-- No porch zone matches a position at the mailbox resting height 1.2. -/
theorem inPorchZone_high (p : Porch) (pos : Vec3) (h : pos.y = 1.2) :
    inPorchZone pos p = false := by
  have h05 : ¬((1.2 : ℚ) < 0.5) := by norm_num
  simp [inPorchZone, h, h05]

/-- The porch scan finds nothing at the mailbox resting height 1.2. -/
theorem porchAny_high (ps : List Porch) (pos : Vec3) (h : pos.y = 1.2) :
    (ps.any (fun p => inPorchZone pos p)) = false := by
  rw [List.any_eq_false]
  intro p hp
  simp [inPorchZone_high p pos h]

/-- Loop body on an airborne newspaper whose post-motion position is inside
some mailbox zone: delivered at height 1.2, velocity zeroed, 20 points; the
subsequent porch scan and ground check cannot fire at height 1.2. -/
theorem updateOneNewspaper_mailbox (walls : List Wall) (mbs : List Mailbox)
    (ps : List Porch) (n : Newspaper)
    (ht : n.thrown = true) (hd : n.delivered = false)
    (hm : (mbs.any (fun m => inMailboxZone (paperStepPos walls n) m)) = true) :
    updateOneNewspaper walls mbs ps n =
      ({ position := Vec3.withY (paperStepPos walls n) 1.2, velocity := vzero,
         thrown := false, delivered := true }, 20) := by
  have hair : (n.thrown && !n.delivered) = true := by simp [ht, hd]
  unfold updateOneNewspaper
  rw [if_pos hair]
  dsimp only
  rw [if_pos hm]
  dsimp only
  split
  · rename_i hppos
    rw [porchAny_high ps _ rfl] at hppos
    simp at hppos
  · split
    · rename_i hg
      exfalso
      rw [show (Vec3.withY (paperStepPos walls n) 1.2).y = 1.2 from rfl] at hg
      norm_num at hg
    · rfl

/-- Loop body on an airborne newspaper whose post-motion position is inside
no mailbox zone but inside some porch zone: delivered at height 0.2,
velocity zeroed, 10 points. -/
theorem updateOneNewspaper_porch (walls : List Wall) (mbs : List Mailbox)
    (ps : List Porch) (n : Newspaper)
    (ht : n.thrown = true) (hd : n.delivered = false)
    (hm : (mbs.any (fun m => inMailboxZone (paperStepPos walls n) m)) = false)
    (hp : (ps.any (fun p => inPorchZone (paperStepPos walls n) p)) = true) :
    updateOneNewspaper walls mbs ps n =
      ({ position := Vec3.withY (paperStepPos walls n) 0.2, velocity := vzero,
         thrown := false, delivered := true }, 10) := by
  have hair : (n.thrown && !n.delivered) = true := by simp [ht, hd]
  have hm' : ¬((mbs.any (fun m => inMailboxZone (paperStepPos walls n) m)) = true) := by
    simp [hm]
  unfold updateOneNewspaper
  rw [if_pos hair]
  dsimp only
  rw [if_neg hm']
  dsimp only
  rw [if_pos hp]
  dsimp only
  split
  · rename_i hg
    exfalso
    rw [show (Vec3.withY (paperStepPos walls n) 0.2).y = 0.2 from rfl] at hg
    norm_num at hg
  · norm_num

/-- Loop body awards nothing when neither zone matches the post-motion
position. -/
theorem updateOneNewspaper_nozone_snd (walls : List Wall) (mbs : List Mailbox)
    (ps : List Porch) (n : Newspaper)
    (hm : (mbs.any (fun m => inMailboxZone (paperStepPos walls n) m)) = false)
    (hp : (ps.any (fun p => inPorchZone (paperStepPos walls n) p)) = false) :
    (updateOneNewspaper walls mbs ps n).2 = 0 := by
  by_cases hair : (n.thrown && !n.delivered) = true
  · have hm' : ¬((mbs.any (fun m => inMailboxZone (paperStepPos walls n) m)) = true) := by
      simp [hm]
    have hp' : ¬((ps.any (fun p => inPorchZone (paperStepPos walls n) p)) = true) := by
      simp [hp]
    unfold updateOneNewspaper
    rw [if_pos hair]
    dsimp only
    rw [if_neg hm']
    dsimp only
    rw [if_neg hp']
    dsimp only
    split <;> rfl
  · unfold updateOneNewspaper
    rw [if_neg hair]

/-- C1 (amended): for an airborne newspaper the frame update awards exactly
20 points when its post-motion position lies in some mailbox zone, and
exactly 10 points when it lies in no mailbox zone but in some porch zone; in
either case the newspaper is marked delivered, its velocity is zeroed and its
thrown flag is cleared, and a delivered newspaper is never processed again.
(When the position lies in both a mailbox zone and a porch zone the mailbox
award of 20 wins, as the counterexample shows.) -/
theorem newspaper_delivery_scoring (walls : List Wall) (mbs : List Mailbox)
    (ps : List Porch) (n : Newspaper)
    (ht : n.thrown = true) (hd : n.delivered = false) :
    ((mbs.any (fun m => inMailboxZone (paperStepPos walls n) m)) = true →
      (updateOneNewspaper walls mbs ps n).2 = 20 ∧
      (updateOneNewspaper walls mbs ps n).1.delivered = true ∧
      (updateOneNewspaper walls mbs ps n).1.velocity = vzero ∧
      (updateOneNewspaper walls mbs ps n).1.thrown = false) ∧
    ((mbs.any (fun m => inMailboxZone (paperStepPos walls n) m)) = false →
     (ps.any (fun p => inPorchZone (paperStepPos walls n) p)) = true →
      (updateOneNewspaper walls mbs ps n).2 = 10 ∧
      (updateOneNewspaper walls mbs ps n).1.delivered = true ∧
      (updateOneNewspaper walls mbs ps n).1.velocity = vzero ∧
      (updateOneNewspaper walls mbs ps n).1.thrown = false) ∧
    (∀ m : Newspaper, m.delivered = true →
      updateOneNewspaper walls mbs ps m = (m, 0)) := by
  refine ⟨fun hm => ?_, fun hm hp => ?_,
    fun m hmd => updateOneNewspaper_delivered walls mbs ps m hmd⟩
  · rw [updateOneNewspaper_mailbox walls mbs ps n ht hd hm]
    exact ⟨rfl, rfl, rfl, rfl⟩
  · rw [updateOneNewspaper_porch walls mbs ps n ht hd hm hp]
    exact ⟨rfl, rfl, rfl, rfl⟩

/-- Witness for newspaper_delivery_scoring: a paper flying dead centre into
the mailbox zone of mailboxA. -/
theorem newspaper_delivery_scoring_witness :
    paperToMailbox.thrown = true ∧ paperToMailbox.delivered = false ∧
    (([mailboxA].any (fun m =>
        inMailboxZone (paperStepPos [] paperToMailbox) m)) = true) ∧
    (updateOneNewspaper [] [mailboxA] [] paperToMailbox).2 = 20 ∧
    (updateOneNewspaper [] [mailboxA] [] paperToMailbox).1.delivered = true ∧
    (updateOneNewspaper [] [mailboxA] [] paperToMailbox).1.velocity = vzero ∧
    (updateOneNewspaper [] [mailboxA] [] paperToMailbox).1.thrown = false := by
  have hm : ([mailboxA].any (fun m =>
      inMailboxZone (paperStepPos [] paperToMailbox) m)) = true := by
    norm_num [paperStepPos, paperHitsWall, paperStepVel, Vec3.add,
      paperToMailbox, mailboxA, inMailboxZone, Math.abs]
  have h := (newspaper_delivery_scoring [] [mailboxA] [] paperToMailbox rfl rfl).1 hm
  exact ⟨rfl, rfl, hm, h.1, h.2.1, h.2.2.1, h.2.2.2⟩

/-- C1 counterexample: a newspaper arriving at (0, 0.4, 0), inside the porch
zone of porchA and also inside the mailbox zone of mailboxA, is awarded 20
points, not the 10 points the porch clause of the claim promises. -/
theorem porch_zone_scores_twenty_cex :
    (inPorchZone (paperStepPos stateBothZones.walls paperBothZones) porchA = true) ∧
    porchA ∈ stateBothZones.porches ∧
    stateBothZones.newspapers = [paperBothZones] ∧
    paperBothZones.thrown = true ∧ paperBothZones.delivered = false ∧
    stateBothZones.score = 0 ∧
    (Game.updateNewspapers stateBothZones).score = 20 ∧
    ¬((Game.updateNewspapers stateBothZones).score = 10) := by
  have hm : ([mailboxA].any (fun m =>
      inMailboxZone (paperStepPos [] paperBothZones) m)) = true := by
    norm_num [paperStepPos, paperHitsWall, paperStepVel, Vec3.add,
      paperBothZones, mailboxA, inMailboxZone, Math.abs]
  have hstep := updateOneNewspaper_mailbox [] [mailboxA] [porchA]
    paperBothZones rfl rfl hm
  have hlist : updateNewspapersList [] [mailboxA] [porchA] 0 [paperBothZones] =
      ([{ position := Vec3.withY (paperStepPos [] paperBothZones) 1.2,
          velocity := vzero, thrown := false, delivered := true }], 20) := by
    simp only [updateNewspapersList, hstep]
    norm_num
  have hsc : (Game.updateNewspapers stateBothZones).score =
      stateBothZones.score +
        (updateNewspapersList [] [mailboxA] [porchA] 0 [paperBothZones]).2 := rfl
  rw [hlist] at hsc
  refine ⟨?_, ?_, rfl, rfl, rfl, rfl, ?_, ?_⟩
  · norm_num [paperStepPos, paperHitsWall, paperStepVel, Vec3.add,
      paperBothZones, porchA, inPorchZone, Math.abs, stateBothZones, initState]
  · show porchA ∈ [porchA]
    simp
  · rw [hsc]; rfl
  · rw [hsc]; norm_num [stateBothZones, initState]

/-- C10: the frame update awards each newspaper 0, 10 or 20 points, never
both zone awards at once; the mailbox scan takes precedence (an airborne
paper in a mailbox zone is awarded exactly 20, the porch scan cannot fire at
height 1.2); and once delivered a newspaper is never again updated or scored
and is retained in the list unchanged. -/
theorem newspaper_delivered_once (walls : List Wall) (mbs : List Mailbox)
    (ps : List Porch) (t : ℚ) (n : Newspaper) (rest : List Newspaper) :
    ((updateOneNewspaper walls mbs ps n).2 = 0 ∨
     (updateOneNewspaper walls mbs ps n).2 = 10 ∨
     (updateOneNewspaper walls mbs ps n).2 = 20) ∧
    (n.thrown = true → n.delivered = false →
     (mbs.any (fun m => inMailboxZone (paperStepPos walls n) m)) = true →
      (updateOneNewspaper walls mbs ps n).2 = 20) ∧
    (n.delivered = true → updateOneNewspaper walls mbs ps n = (n, 0)) ∧
    (n.delivered = true →
      updateNewspapersList walls mbs ps t (n :: rest) =
        (n :: (updateNewspapersList walls mbs ps t rest).1,
         (updateNewspapersList walls mbs ps t rest).2)) := by
  refine ⟨?_, ?_, fun hd => updateOneNewspaper_delivered walls mbs ps n hd, fun hd => ?_⟩
  · by_cases hair : (n.thrown && !n.delivered) = true
    · rw [Bool.and_eq_true, Bool.not_eq_true'] at hair
      by_cases hm : (mbs.any (fun m => inMailboxZone (paperStepPos walls n) m)) = true
      · right; right
        rw [updateOneNewspaper_mailbox walls mbs ps n hair.1 hair.2 hm]
      · have hm' : (mbs.any (fun m => inMailboxZone (paperStepPos walls n) m)) = false := by
          simpa using hm
        by_cases hp : (ps.any (fun p => inPorchZone (paperStepPos walls n) p)) = true
        · right; left
          rw [updateOneNewspaper_porch walls mbs ps n hair.1 hair.2 hm' hp]
        · have hp' : (ps.any (fun p => inPorchZone (paperStepPos walls n) p)) = false := by
            simpa using hp
          left
          exact updateOneNewspaper_nozone_snd walls mbs ps n hm' hp'
    · left
      unfold updateOneNewspaper
      rw [if_neg hair]
  · intro ht hd hm
    rw [updateOneNewspaper_mailbox walls mbs ps n ht hd hm]
  · have h0 := updateOneNewspaper_delivered walls mbs ps n hd
    have hcond : ¬((!n.thrown && !n.delivered && decide (t > 30)) = true) := by
      simp [hd]
    simp only [updateNewspapersList, h0]
    rw [if_neg hcond]
    simp

/-- Witness for newspaper_delivered_once: the mailbox-delivery paper for the
airborne clauses and a delivered paper for the retention clauses. -/
theorem newspaper_delivered_once_witness :
    ((updateOneNewspaper [] [mailboxA] [] paperToMailbox).2 = 0 ∨
     (updateOneNewspaper [] [mailboxA] [] paperToMailbox).2 = 10 ∨
     (updateOneNewspaper [] [mailboxA] [] paperToMailbox).2 = 20) ∧
    paperToMailbox.thrown = true ∧ paperToMailbox.delivered = false ∧
    (([mailboxA].any (fun m =>
        inMailboxZone (paperStepPos [] paperToMailbox) m)) = true) ∧
    (updateOneNewspaper [] [mailboxA] [] paperToMailbox).2 = 20 ∧
    paperDelivered.delivered = true ∧
    updateOneNewspaper [] [mailboxA] [] paperDelivered = (paperDelivered, 0) ∧
    updateNewspapersList [] [mailboxA] [] 31 [paperDelivered] =
      (paperDelivered :: (updateNewspapersList [] [mailboxA] [] 31 []).1,
       (updateNewspapersList [] [mailboxA] [] 31 []).2) := by
  have hm : ([mailboxA].any (fun m =>
      inMailboxZone (paperStepPos [] paperToMailbox) m)) = true := by
    norm_num [paperStepPos, paperHitsWall, paperStepVel, Vec3.add,
      paperToMailbox, mailboxA, inMailboxZone, Math.abs]
  have h1 := newspaper_delivered_once [] [mailboxA] [] 31 paperToMailbox []
  have h2 := newspaper_delivered_once [] [mailboxA] [] 31 paperDelivered []
  exact ⟨h1.1, rfl, rfl, hm, h1.2.1 rfl rfl hm, rfl, h2.2.2.1 rfl, h2.2.2.2 rfl⟩

/-- C5 (amended): a grounded undelivered newspaper is removed by the frame
update exactly when the global game time exceeds 30 — regardless of when the
newspaper became grounded — and while gameTime is at most 30 it is retained
unchanged; in either case it is not scored. -/
theorem grounded_newspaper_removal (walls : List Wall) (mbs : List Mailbox)
    (ps : List Porch) (t : ℚ) (n : Newspaper) (rest : List Newspaper)
    (ht : n.thrown = false) (hd : n.delivered = false) :
    updateNewspapersList walls mbs ps t (n :: rest) =
      (if t > 30 then (updateNewspapersList walls mbs ps t rest).1
       else n :: (updateNewspapersList walls mbs ps t rest).1,
       (updateNewspapersList walls mbs ps t rest).2) := by
  have h0 := updateOneNewspaper_grounded walls mbs ps n ht
  simp only [updateNewspapersList, h0]
  by_cases hgt : t > 30
  · have hcond : (!n.thrown && !n.delivered && decide (t > 30)) = true := by
      simp [ht, hd, hgt]
    rw [if_pos hcond, if_pos hgt]
    simp
  · have hcond : ¬((!n.thrown && !n.delivered && decide (t > 30)) = true) := by
      simp [ht, hd, hgt]
    rw [if_neg hcond, if_neg hgt]
    simp

/-- Witness for grounded_newspaper_removal at gameTime 31 (removal) and
gameTime 5 (retention). -/
theorem grounded_newspaper_removal_witness :
    paperGrounded.thrown = false ∧ paperGrounded.delivered = false ∧
    updateNewspapersList [] [] [] 31 [paperGrounded] =
      (if (31 : ℚ) > 30 then (updateNewspapersList [] [] [] 31 []).1
       else paperGrounded :: (updateNewspapersList [] [] [] 31 []).1,
       (updateNewspapersList [] [] [] 31 []).2) ∧
    updateNewspapersList [] [] [] 5 [paperGrounded] =
      (if (5 : ℚ) > 30 then (updateNewspapersList [] [] [] 5 []).1
       else paperGrounded :: (updateNewspapersList [] [] [] 5 []).1,
       (updateNewspapersList [] [] [] 5 []).2) :=
  ⟨rfl, rfl, grounded_newspaper_removal [] [] [] 31 paperGrounded [] rfl rfl,
   grounded_newspaper_removal [] [] [] 5 paperGrounded [] rfl rfl⟩

/-- C5 counterexample: at gameTime 31 a newspaper that is still airborne at
the start of the frame lands during that very frame and is removed in the
same frame — zero time units after becoming grounded, not 30. -/
theorem newspaper_timeout_cex :
    stateLateGround.gameTime = 31 ∧
    stateLateGround.newspapers = [paperLanding] ∧
    paperLanding.thrown = true ∧ paperLanding.delivered = false ∧
    (Game.updateNewspapers stateLateGround).newspapers = [] := by
  refine ⟨rfl, rfl, rfl, rfl, ?_⟩
  have hstep : updateOneNewspaper [] [] [] paperLanding =
      ({ position := ⟨0, 0.05, 0⟩, velocity := vzero,
         thrown := false, delivered := false }, 0) := by
    norm_num [updateOneNewspaper, paperLanding, paperStepPos, paperHitsWall,
      paperStepVel, Vec3.add, Vec3.withY, vzero]
  have hlist : updateNewspapersList [] [] [] 31 [paperLanding] =
      (([] : List Newspaper), 0) := by
    have hcond : (!(false : Bool) && !(false : Bool) &&
        decide ((31 : ℚ) > 30)) = true := by norm_num
    simp only [updateNewspapersList, hstep]
    rw [if_pos hcond]
    norm_num
  show (updateNewspapersList [] [] [] 31 [paperLanding]).1 = []
  rw [hlist]

/-- C7 (amended): the DOM lookup helper returns the element when it exists;
when the element is missing it logs a console error and returns null (the
miss value of document.getElementById), not undefined. -/
theorem get_element_by_id_spec (doc : Document) (id : String) :
    (∀ e, doc id = some e → getElementById doc id = (DomValue.elem e, [])) ∧
    (doc id = none →
      getElementById doc id =
        (DomValue.null, ["Element with ID \"" ++ id ++ "\" not found"])) := by
  constructor
  · intro e he
    unfold getElementById documentGetElementById
    rw [he]
  · intro he
    unfold getElementById documentGetElementById
    rw [he]

/-- Witness for get_element_by_id_spec on a document holding only "score". -/
theorem get_element_by_id_spec_witness :
    docWithScore "score" = some "scoreBox" ∧
    getElementById docWithScore "score" = (DomValue.elem "scoreBox", []) ∧
    docWithScore "papers" = none ∧
    getElementById docWithScore "papers" =
      (DomValue.null, ["Element with ID \"" ++ "papers" ++ "\" not found"]) := by
  have hs : docWithScore "score" = some "scoreBox" := by simp [docWithScore]
  have hp : docWithScore "papers" = none := by simp [docWithScore]
  exact ⟨hs, (get_element_by_id_spec docWithScore "score").1 "scoreBox" hs,
    hp, (get_element_by_id_spec docWithScore "papers").2 hp⟩

/-- C7 counterexample: on the empty document the helper returns null
together with the error log, and null is not undefined. -/
theorem get_element_missing_returns_null_cex :
    getElementById (fun _ => none) "score" =
      (DomValue.null, ["Element with ID \"" ++ "score" ++ "\" not found"]) ∧
    DomValue.null ≠ DomValue.undefined := by
  constructor
  · unfold getElementById documentGetElementById
    rfl
  · intro h
    cases h

/-- Fields preserved by the end-of-game check. -/
theorem endCheck_fields (g : GameState) :
    (Game.endCheck g).papers = g.papers ∧
    (Game.endCheck g).newspapers = g.newspapers ∧
    (Game.endCheck g).lives = g.lives ∧
    (Game.endCheck g).gameTime = g.gameTime := by
  unfold Game.endCheck
  split <;> exact ⟨rfl, rfl, rfl, rfl⟩

/-- The active flag after the end-of-game check. -/
theorem endCheck_isActive (g : GameState) :
    (Game.endCheck g).isActive =
      (if g.papers ≤ 0 ∧ g.newspapers = [] ∧ 0 < g.lives then false
       else g.isActive) := by
  unfold Game.endCheck
  split <;> rfl

/-- Fields of the collision-and-movement stage: papers and the newspapers
list pass through untouched, lives and the active flag come from the
collision check. -/
theorem frameMove_fields (g : GameState) (dt : ℚ) :
    (Game.frameMove g dt).papers = g.papers ∧
    (Game.frameMove g dt).newspapers = g.newspapers ∧
    (Game.frameMove g dt).isActive = (Game.checkObstacleCollisions g).2.isActive ∧
    (Game.frameMove g dt).lives = (Game.checkObstacleCollisions g).2.lives ∧
    (Game.frameMove g dt).mailboxes = g.mailboxes ∧
    (Game.frameMove g dt).porches = g.porches ∧
    (Game.frameMove g dt).walls = g.walls ∧
    (Game.frameMove g dt).gameTime = g.gameTime := by
  have hw := checkObstacleCollisions_world g
  unfold Game.frameMove
  dsimp only
  split
  · exact ⟨hw.2.2.2.1, hw.2.2.2.2.1, rfl, rfl, hw.2.1, hw.2.2.1,
      hw.2.2.2.2.2.1, hw.2.2.2.2.2.2.1⟩
  · exact ⟨hw.2.2.2.1, hw.2.2.2.2.1, rfl, rfl, hw.2.1, hw.2.2.1,
      hw.2.2.2.2.2.1, hw.2.2.2.2.2.2.1⟩

/-- Lives and active flag produced by the collision check, by hit flag. -/
theorem checkObstacleCollisions_snd_lives (g : GameState) :
    ((Game.checkObstacleCollisions g).1 = false →
      (Game.checkObstacleCollisions g).2 = g) ∧
    ((Game.checkObstacleCollisions g).1 = true →
      (Game.checkObstacleCollisions g).2.lives = g.lives - 1 ∧
      (Game.checkObstacleCollisions g).2.isActive =
        (if g.lives - 1 ≤ 0 then false else g.isActive)) := by
  by_cases hinv : g.player.isInvincible = true
  · rw [checkObstacleCollisions_invincible g hinv]
    exact ⟨fun _ => rfl, fun h => by simp at h⟩
  · have hinv' : g.player.isInvincible = false := by simpa using hinv
    by_cases hs : collisionScan g = true
    · rw [checkObstacleCollisions_hit g hinv' hs]
      refine ⟨fun h => by simp at h, fun _ => ⟨?_, ?_⟩⟩
      · dsimp only
        split <;> rfl
      · dsimp only
        split <;> rfl
    · have hs' : collisionScan g = false := by simpa using hs
      rw [checkObstacleCollisions_miss g hinv' hs']
      exact ⟨fun _ => rfl, fun h => by simp at h⟩

/-- Core of the terminal-condition analysis, for the state whose clock was
already advanced. -/
theorem frame_core_inactive_iff (A : GameState) (dt : ℚ)
    (hact : A.isActive = true) (hli : 1 ≤ A.lives) (hpa : 0 ≤ A.papers) :
    ((Game.endCheck (Game.updateNewspapers (Game.frameMove A dt))).isActive = false ↔
      (((Game.checkObstacleCollisions A).1 = true ∧
        (Game.endCheck (Game.updateNewspapers (Game.frameMove A dt))).lives = 0) ∨
       (A.papers = 0 ∧
        (Game.endCheck (Game.updateNewspapers (Game.frameMove A dt))).newspapers = []))) := by
  have hmf := frameMove_fields A dt
  have hcs := checkObstacleCollisions_snd_lives A
  have hup : (Game.updateNewspapers (Game.frameMove A dt)).papers = A.papers := hmf.1
  have hul : (Game.updateNewspapers (Game.frameMove A dt)).lives =
      (Game.checkObstacleCollisions A).2.lives := hmf.2.2.2.1
  have hua : (Game.updateNewspapers (Game.frameMove A dt)).isActive =
      (Game.checkObstacleCollisions A).2.isActive := hmf.2.2.1
  have hea := endCheck_isActive (Game.updateNewspapers (Game.frameMove A dt))
  have hef := endCheck_fields (Game.updateNewspapers (Game.frameMove A dt))
  rw [hea, hef.2.2.1, hef.2.1, hup, hul, hua]
  by_cases hhit : (Game.checkObstacleCollisions A).1 = true
  · have hl2 := hcs.2 hhit
    rw [hl2.1, hl2.2, hact, hhit]
    by_cases hle : A.lives - 1 ≤ 0
    · have hL : A.lives - 1 = 0 := by omega
      rw [if_pos hle]
      simp only [ite_self]
      simp [hL]
    · rw [if_neg hle]
      constructor
      · intro h
        by_cases hc : A.papers ≤ 0 ∧
            (Game.updateNewspapers (Game.frameMove A dt)).newspapers = [] ∧
            0 < A.lives - 1
        · exact Or.inr ⟨by omega, hc.2.1⟩
        · rw [if_neg hc] at h
          cases h
      · intro h
        rcases h with ⟨_, hL0⟩ | ⟨hp0, hns⟩
        · omega
        · rw [if_pos ⟨by omega, hns, by omega⟩]
  · have hhf : (Game.checkObstacleCollisions A).1 = false := by simpa using hhit
    have hC := hcs.1 hhf
    rw [hC, hact, hhf]
    constructor
    · intro h
      by_cases hc : A.papers ≤ 0 ∧
          (Game.updateNewspapers (Game.frameMove A dt)).newspapers = [] ∧
          0 < A.lives
      · exact Or.inr ⟨by omega, hc.2.1⟩
      · rw [if_neg hc] at h
        cases h
    · intro h
      rcases h with ⟨hf, _⟩ | ⟨hp0, hns⟩
      · simp at hf
      · rw [if_pos ⟨by omega, hns, by omega⟩]

/-- C3: a frame step of an active game (with at least one life and a
nonnegative paper count, as in every reachable active state) turns the game
inactive exactly when a collision this frame brings lives to zero, or the
paper count is zero and the newspapers list after the frame's update is
empty; otherwise the step leaves the game active. -/
theorem game_over_iff_terminal (g : GameState) (dt : ℚ)
    (hact : g.isActive = true) (hli : 1 ≤ g.lives) (hpa : 0 ≤ g.papers) :
    ((Game.frameStep g dt).isActive = false ↔
      ((Game.frameHit g dt = true ∧ (Game.frameStep g dt).lives = 0) ∨
       (g.papers = 0 ∧ (Game.frameStep g dt).newspapers = []))) :=
  frame_core_inactive_iff { g with gameTime := g.gameTime + dt } dt hact hli hpa

/-- Witness for game_over_iff_terminal: the papers-exhausted empty-world
state steps to game over. -/
theorem game_over_iff_terminal_witness :
    statePapersOut.isActive = true ∧ 1 ≤ statePapersOut.lives ∧
    0 ≤ statePapersOut.papers ∧
    ((Game.frameStep statePapersOut 0).isActive = false ↔
      ((Game.frameHit statePapersOut 0 = true ∧
        (Game.frameStep statePapersOut 0).lives = 0) ∨
       (statePapersOut.papers = 0 ∧
        (Game.frameStep statePapersOut 0).newspapers = []))) :=
  ⟨rfl, by decide, by decide,
   game_over_iff_terminal statePapersOut 0 rfl (by decide) (by decide)⟩

/-- A frame step never changes the paper count and never lengthens the
newspapers list. -/
theorem frameStep_papers_newslen (g : GameState) (dt : ℚ) :
    (Game.frameStep g dt).papers = g.papers ∧
    (Game.frameStep g dt).newspapers.length ≤ g.newspapers.length := by
  unfold Game.frameStep
  have hmf := frameMove_fields { g with gameTime := g.gameTime + dt } dt
  have hef := endCheck_fields (Game.updateNewspapers
    (Game.frameMove { g with gameTime := g.gameTime + dt } dt))
  constructor
  · rw [hef.1]
    exact hmf.1
  · rw [hef.2.1]
    have h1 : (Game.updateNewspapers
        (Game.frameMove { g with gameTime := g.gameTime + dt } dt)).newspapers.length ≤
        (Game.frameMove { g with gameTime := g.gameTime + dt } dt).newspapers.length :=
      updateNewspapersList_length_le _ _ _ _ _
    rw [hmf.2.1] at h1
    exact h1

/-- Creating a newspaper with papers in hand: one paper fewer, one
newspaper more, activity unchanged. -/
theorem createNewspaper_pos (g : GameState) (x y z vx vz : ℚ)
    (h : 0 < g.papers) :
    (Game.createNewspaper g x y z vx vz).papers = g.papers - 1 ∧
    (Game.createNewspaper g x y z vx vz).newspapers.length =
      g.newspapers.length + 1 ∧
    (Game.createNewspaper g x y z vx vz).isActive = g.isActive := by
  unfold Game.createNewspaper
  rw [if_neg (by omega)]
  refine ⟨rfl, ?_, rfl⟩
  dsimp only
  rw [List.length_append]
  rfl

/-- Counters after k consecutive throws. -/
theorem throwMany_spec (k : ℕ) : ∀ g : GameState, (k : ℤ) ≤ g.papers →
    (throwMany k g).papers = g.papers - k ∧
    (throwMany k g).newspapers.length = g.newspapers.length + k ∧
    (throwMany k g).isActive = g.isActive := by
  induction k with
  | zero => intro g _; simp [throwMany]
  | succ k ih =>
    intro g hk
    have hpos : 0 < g.papers := by push_cast at hk; omega
    have hc := createNewspaper_pos g 0 2 0 0 0 hpos
    have hrec := ih (Game.createNewspaper g 0 2 0 0 0)
      (by rw [hc.1]; push_cast at hk ⊢; omega)
    have hthrow : throwMany (k + 1) g =
        throwMany k (Game.createNewspaper g 0 2 0 0 0) := rfl
    refine ⟨?_, ?_, ?_⟩
    · rw [hthrow, hrec.1, hc.1]; push_cast; ring
    · rw [hthrow, hrec.2.1, hc.2.1]; omega
    · rw [hthrow, hrec.2.2, hc.2.2]

/-- k consecutive throws are reachable game transitions while active with
enough papers. -/
theorem throwMany_reachable (k : ℕ) : ∀ g : GameState, g.isActive = true →
    (k : ℤ) ≤ g.papers → Reachable g (throwMany k g) := by
  induction k with
  | zero => intro g _ _; exact Relation.ReflTransGen.refl
  | succ k ih =>
    intro g hact hk
    have hpos : 0 < g.papers := by push_cast at hk; omega
    have hc := createNewspaper_pos g 0 2 0 0 0 hpos
    have hnext := ih (Game.createNewspaper g 0 2 0 0 0)
      (hc.2.2.trans hact) (by rw [hc.1]; push_cast at hk ⊢; omega)
    exact Relation.ReflTransGen.head (GameStep.throw g 0 2 0 0 0 hact hpos) hnext

/-- Every single game transition preserves papers + newspapers ≤ 100. -/
theorem gameStep_papers_invariant (g g' : GameState) (hstep : GameStep g g')
    (hinv : g.papers + (g.newspapers.length : ℤ) ≤ 100) :
    g'.papers + (g'.newspapers.length : ℤ) ≤ 100 := by
  cases hstep with
  | frame dt hdt hact =>
    have h := frameStep_papers_newslen g dt
    have h2 := h.2
    rw [h.1]
    omega
  | throw x y z vx vz hact hp =>
    unfold Game.createNewspaper
    rw [if_neg (by omega)]
    dsimp only
    rw [List.length_append]
    simp only [List.length_singleton]
    push_cast
    omega
  | move vx hact hvx => exact hinv
  | jump hact hc hh => exact hinv
  | restart h =>
    unfold Game.restartGame
    dsimp only
    norm_num

/-- The invariant holds in every state reachable from a state satisfying
it. -/
theorem reachable_papers_invariant (g0 g : GameState)
    (h0 : g0.papers + (g0.newspapers.length : ℤ) ≤ 100)
    (hr : Reachable g0 g) :
    g.papers + (g.newspapers.length : ℤ) ≤ 100 := by
  induction hr with
  | refl => exact h0
  | tail hab hbc ih => exact gameStep_papers_invariant _ _ hbc ih

/-- C6 (amended): in every state reachable from a fresh game the paper
count plus the length of the newspapers list is bounded by the initial 100
papers — the list length is bounded by the papers already consumed, not by
the remaining count. -/
theorem papers_plus_newspapers_bounded (obstacles : List Obstacle)
    (mailboxes : List Mailbox) (porches : List Porch) (walls : List Wall)
    (g : GameState)
    (hr : Reachable (initState obstacles mailboxes porches walls) g) :
    g.papers + (g.newspapers.length : ℤ) ≤ 100 :=
  reachable_papers_invariant _ g (by norm_num [initState]) hr

/-- Witness for papers_plus_newspapers_bounded at the fresh empty-world
game. -/
theorem papers_plus_newspapers_bounded_witness :
    Reachable (initState [] [] [] []) (initState [] [] [] []) ∧
    (initState [] [] [] []).papers +
      ((initState [] [] [] []).newspapers.length : ℤ) ≤ 100 :=
  ⟨Relation.ReflTransGen.refl,
   papers_plus_newspapers_bounded [] [] [] [] _ Relation.ReflTransGen.refl⟩

/-- C6 counterexample: after 51 throws from a fresh game — a reachable
state — the newspapers list holds 51 entries while only 49 papers remain,
so the list length is not bounded by the remaining paper count. -/
theorem newspapers_exceed_papers_cex :
    Reachable (initState [] [] [] []) (throwMany 51 (initState [] [] [] [])) ∧
    ¬(((throwMany 51 (initState [] [] [] [])).newspapers.length : ℤ) ≤
      (throwMany 51 (initState [] [] [] [])).papers) := by
  have hspec := throwMany_spec 51 (initState [] [] [] []) (by norm_num [initState])
  refine ⟨throwMany_reachable 51 (initState [] [] [] []) rfl
    (by norm_num [initState]), ?_⟩
  rw [hspec.1, hspec.2.1]
  norm_num [initState]
